import Mathlib

/-!
Shallow embedding of the `ft_config` Go package.

The Go package keeps a thread-safe string key/value store (`Config` in
config.go, wrapped by `Service` in service.go), fills it from a `.env`
file via the external `godotenv` parser plus the process environment,
and exposes a toggleable logger (unnamed logger file).  Mutation of the
receiver is modelled by explicit state passing: every operation returns
the new state.  Go `error` values are the inductive `GoErr`; Go maps are
functions `String → Option String`; the file system and the process
environment are parameters of `Load`.
-/

/-- Go `error` values used by the package: the sentinels of errors.go,
an aggregated missing-required-fields error, an opaque I/O or parse
cause, and `fmt.Errorf("%w")`-style wrapping. -/
inductive GoErr where
  | keyNotFound
  | loadEnv
  | emptyKey
  | invalidValue
  | noMapping
  | missingRequired (msg : String)
  | invalidTarget
  | ioError (msg : String)
  | wrap (outer : GoErr) (cause : GoErr)
deriving DecidableEq

/-- Go `errors.Unwrap`: only a wrapping error yields its cause. -/
def GoErr.unwrap : GoErr → Option GoErr
  | .wrap _ cause => some cause
  | _ => none

/-- A Go `map[string]string`, as a total function to `Option`. -/
abbrev StoreMap := String → Option String

/-- The empty map (`make(map[string]string)`). -/
def StoreMap.empty : StoreMap := fun _ => none

/-- Go map assignment `m[k] = v`: insert or overwrite. -/
def StoreMap.insert (m : StoreMap) (k v : String) : StoreMap :=
  fun x => if x = k then some v else m x

/-- Go `delete(m, k)`: removing an absent key is a no-op. -/
def StoreMap.erase (m : StoreMap) (k : String) : StoreMap :=
  fun x => if x = k then none else m x

/-- The process environment, as consulted by `os.LookupEnv`. -/
abbrev Env := String → Option String

/-- The file system seen by `godotenv.Load`: a path either parses to a
list of `KEY=value` entries or fails with the underlying I/O/parse
cause. -/
abbrev FileSource := String → Except GoErr (List (String × String))

/-- `ConfigMapping` (config.go): logical field name paired with the
environment variable name it sources from.  Go's `map[string]string`
has unique keys; theorems that need this take a `Nodup` hypothesis. -/
abbrev ConfigMapping := List (String × String)

/-- `Config` (config.go): the dynamically populated value store. -/
structure Config where
  values : StoreMap

/-- `Config.Get` (config.go): `ErrEmptyKey` on the empty key, else the
stored value or `ErrKeyNotFound`. -/
def Config.Get (c : Config) (key : String) : Except GoErr String :=
  if key = "" then Except.error GoErr.emptyKey
  else
    match c.values key with
    | none => Except.error GoErr.keyNotFound
    | some value => Except.ok value

/-- `Config.GetOrDefault` (config.go): the stored value when present,
otherwise the default; no empty-key check, no error channel. -/
def Config.GetOrDefault (c : Config) (key defaultValue : String) : String :=
  match c.values key with
  | none => defaultValue
  | some value => value

/-- `Config.Has` (config.go): presence test, no empty-key check. -/
def Config.Has (c : Config) (key : String) : Bool :=
  (c.values key).isSome

/-- `Service` (service.go): the mapping supplied at construction plus
the owned `Config` store.  The `sync.RWMutex` only serialises the
operations modelled here, so it has no explicit counterpart. -/
structure Service where
  mapping : ConfigMapping
  config : Config

/-- `New` (service.go): fresh service with an empty store. -/
def Service.New (mapping : ConfigMapping) : Service :=
  { mapping := mapping, config := { values := StoreMap.empty } }

/-- One entry of `godotenv.Load`'s export into the process environment:
a parsed variable is set only when not already present (godotenv does
not override existing variables). -/
def mergeStep (env : Env) (entry : String × String) : Env :=
  fun x => if x = entry.1 && (env x).isNone then some entry.2 else env x

/-- `godotenv.Load(filePath)` (external collaborator): read and parse
the file at the given path — failing with the underlying cause — and
export the parsed entries into the process environment. -/
def godotenvLoad (fs : FileSource) (env : Env) (filePath : String) : Except GoErr Env :=
  match fs filePath with
  | Except.error e => Except.error e
  | Except.ok entries => Except.ok (entries.foldl mergeStep env)

/-- One iteration of `Service.Load`'s mapping loop (service.go): on an
`os.LookupEnv` hit write `values[configKey] = envValue`, else leave the
store untouched. -/
def Service.loadStep (env1 : Env) (acc : StoreMap) (entry : String × String) : StoreMap :=
  match env1 entry.2 with
  | some envValue => StoreMap.insert acc entry.1 envValue
  | none => acc

/-- `Service.Load` (service.go): unconditionally call
`godotenv.Load(filePath)`; on failure return the bare `ErrLoadEnv`
sentinel with the store and environment untouched; on success iterate
the mapping against the (now merged) process environment.  Returns the
new service, the new process environment and the Go error result. -/
def Service.Load (fs : FileSource) (env : Env) (s : Service) (filePath : String) :
    Service × Env × Option GoErr :=
  match godotenvLoad fs env filePath with
  | Except.error _e => (s, env, some GoErr.loadEnv)
  | Except.ok env1 =>
      ({ s with config := { values := s.mapping.foldl (Service.loadStep env1) s.config.values } },
       env1, none)

/-- `Service.Get` (service.go): delegates to `Config.Get`. -/
def Service.Get (s : Service) (key : String) : Except GoErr String :=
  s.config.Get key

/-- `Service.GetOrDefault` (service.go): delegates to the store. -/
def Service.GetOrDefault (s : Service) (key defaultValue : String) : String :=
  s.config.GetOrDefault key defaultValue

/-- `Service.Has` (service.go): delegates to the store. -/
def Service.Has (s : Service) (key : String) : Bool :=
  s.config.Has key

/-- `Service.Set` (service.go): `ErrEmptyKey` on the empty key, else
insert or overwrite. -/
def Service.Set (s : Service) (key value : String) : Except GoErr Service :=
  if key = "" then Except.error GoErr.emptyKey
  else Except.ok { s with config := { values := StoreMap.insert s.config.values key value } }

/-- `Service.Delete` (service.go): unconditional `delete`, no empty-key
check, no error channel. -/
def Service.Delete (s : Service) (key : String) : Service :=
  { s with config := { values := StoreMap.erase s.config.values key } }

/-- `Service.Clear` (service.go): fresh empty store. -/
def Service.Clear (s : Service) : Service :=
  { s with config := { values := StoreMap.empty } }

/-- `Logger` (unnamed logger file): the package-level toggle. -/
structure Logger where
  enabled : Bool

/-- `globalLogger`'s initial value (unnamed logger file): disabled by
default for production use. -/
def globalLoggerInit : Logger := { enabled := false }

/-- Observable logging state: the toggle plus the lines emitted so far
on the diagnostic stream (`log.Printf`). -/
structure LogState where
  logger : Logger
  lines : List String

/-- Message text of a Go error, as `%v` renders it: the `errors.New`
strings of errors.go, the aggregate or cause text otherwise. -/
def errText : GoErr → String
  | .keyNotFound => "configuration key not found"
  | .loadEnv => "failed to load .env file"
  | .emptyKey => "key cannot be empty"
  | .invalidValue => "invalid value type"
  | .noMapping => "no configuration mapping provided"
  | .missingRequired msg => msg
  | .invalidTarget => "config must be a pointer to a struct"
  | .ioError msg => msg
  | .wrap outer cause => errText outer ++ ": " ++ errText cause

/-- `logInfo` (unnamed logger file): emit only when enabled. -/
def logInfo (st : LogState) (context message : String) : LogState :=
  if st.logger.enabled then
    { st with lines := st.lines ++ ["[ft_config] [" ++ context ++ "] " ++ message] }
  else st

/-- `logInfof` (unnamed logger file): `fmt.Sprintf` is applied first,
so the already-formatted message is the argument; emit only when
enabled. -/
def logInfof (st : LogState) (context formattedMessage : String) : LogState :=
  if st.logger.enabled then
    { st with lines := st.lines ++ ["[ft_config] [" ++ context ++ "] " ++ formattedMessage] }
  else st

/-- `logError` (unnamed logger file): emit only when enabled. -/
def logError (st : LogState) (context : String) (err : GoErr) : LogState :=
  if st.logger.enabled then
    { st with lines := st.lines ++ ["[ft_config] [" ++ context ++ "] ERROR: " ++ errText err] }
  else st

/-- Modelled from the spec: the reflective one-shot `Load(path, target)`
entry point is code of this repository missing from src/ (only its
tests in service_test.go are present).  A field of the annotated target
structure, in declaration order: its name, its `env` tag when present,
and whether it is string-typed and writable. -/
structure StructField where
  name : String
  tag : Option String
  isString : Bool
  writable : Bool

/-- Modelled from the spec: one field of the reflective mapper
(spec 4.2 strategy (b)) — skip untagged fields, skip (with a warning)
non-string or non-writable fields, set the field on a source hit, and
record the annotated name on a miss. -/
def reflectStep (src : Env) (acc : List (String × String) × List String)
    (f : StructField) : List (String × String) × List String :=
  match f.tag with
  | none => acc
  | some tagName =>
      if f.isString && f.writable then
        match src tagName with
        | some v => (acc.1 ++ [(f.name, v)], acc.2)
        | none => (acc.1, acc.2 ++ [tagName])
      else acc

/-- Modelled from the spec: the aggregated error message of
`MissingRequiredFields`, comma-joining every missing environment name
(matching the message checked by TestLoadWithMissingEnvVar). -/
def missingRequiredMessage (names : List String) : String :=
  "missing required environment variables: " ++ String.intercalate ", " names

/-- Specification-side characterisation of the missing list: the
annotated names of the string-typed writable fields whose source lookup
misses, in declaration order. -/
def missingTags (src : Env) (fields : List StructField) : List String :=
  fields.filterMap (fun f =>
    match f.tag with
    | none => none
    | some tagName =>
        if f.isString && f.writable && (src tagName).isNone then some tagName else none)

/-- Modelled from the spec: the reflective `Load(path, target)` entry
point (spec 4.3) — an empty path skips file parsing and resolves
against the process environment, a non-empty path goes through the
environment-file collaborator (failure wraps the cause in
`LoadEnvFailed`), then the reflective mapper runs over the fields and
either every tagged field's assignment is returned or one aggregated
`MissingRequiredFields` error is. -/
def reflectiveLoad (fs : FileSource) (env : Env) (filePath : String)
    (fields : List StructField) : Except GoErr (List (String × String)) :=
  match (if filePath = "" then Except.ok env else godotenvLoad fs env filePath) with
  | Except.error e => Except.error (GoErr.wrap GoErr.loadEnv e)
  | Except.ok env1 =>
      if (fields.foldl (reflectStep env1) ([], [])).2.isEmpty then
        Except.ok (fields.foldl (reflectStep env1) ([], [])).1
      else
        Except.error (GoErr.missingRequired
          (missingRequiredMessage (fields.foldl (reflectStep env1) ([], [])).2))

/-- Environment with no variables set. -/
def envNone : Env := fun _ => none

/-- Environment holding exactly `K1=hello`. -/
def envK1hello : Env := fun n => if n = "K1" then some "hello" else none

/-- File system on which every read fails (no file exists at any path,
in particular none at the empty path). -/
def fsAllMissing : FileSource :=
  fun _ => Except.error (GoErr.ioError "open : no such file or directory")

/-- File system on which every path parses to an empty entry list. -/
def fsAllEmpty : FileSource := fun _ => Except.ok []

/-- Store holding exactly `a = x`. -/
def cfgAX : Config := { values := StoreMap.insert StoreMap.empty "a" "x" }

/-- Target structure declaring string fields `A`, `B`, `C` annotated
`K1`, `K2`, `K3`, in that order. -/
def fieldsKs : List StructField :=
  [{ name := "A", tag := some "K1", isString := true, writable := true },
   { name := "B", tag := some "K2", isString := true, writable := true },
   { name := "C", tag := some "K3", isString := true, writable := true }]

/-- Service whose mapping binds `B` to `K2` and whose store already
holds `A = old` (installed earlier via `Set`). -/
def svcBold : Service :=
  { mapping := [("B", "K2")],
    config := { values := StoreMap.insert StoreMap.empty "A" "old" } }

/-- Store holding exactly the empty-string key mapped to `hello`,
reached by `Load` through the mapping `"" -> K1` (a Go map may hold the
empty string as a key). -/
def svcEmptyKey : Service :=
  (Service.Load fsAllEmpty envK1hello (Service.New [("", "K1")]) "cfg.env").1

/-- Frame lemma for the mapping loop of `Service.Load`: a key whose
every binding in the mapping misses in the environment is left exactly
as the accumulator had it. -/
theorem loadStep_foldl_frame (env1 : Env) :
    ∀ (M : ConfigMapping) (acc : StoreMap) (k : String),
      (∀ en, (k, en) ∈ M → env1 en = none) →
      M.foldl (Service.loadStep env1) acc k = acc k := by
  intro M
  induction M with
  | nil => intro acc k _; rfl
  | cons p tl ih =>
      intro acc k hk
      have htl : ∀ en, (k, en) ∈ tl → env1 en = none :=
        fun en hen => hk en (List.mem_cons_of_mem _ hen)
      rw [List.foldl_cons, ih _ k htl]
      unfold Service.loadStep
      cases hp : env1 p.2 with
      | none => rfl
      | some v =>
          have hne : k ≠ p.1 := by
            intro hEq
            have hmem : (k, p.2) ∈ p :: tl := by
              rw [hEq, Prod.mk.eta]
              exact List.mem_cons_self _ _
            have := hk p.2 hmem
            rw [hp] at this
            exact Option.noConfusion this
          simp [StoreMap.insert, hne]

/-- Lookup lemma for the mapping loop of `Service.Load`: with unique
logical keys, a mapping entry ends up bound to its environment value on
a hit and left as the accumulator had it on a miss. -/
theorem loadStep_foldl_lookup (env1 : Env) :
    ∀ (M : ConfigMapping) (acc : StoreMap) (lk en : String),
      (M.map Prod.fst).Nodup → (lk, en) ∈ M →
      M.foldl (Service.loadStep env1) acc lk =
        (match env1 en with | some v => some v | none => acc lk) := by
  intro M
  induction M with
  | nil => intro acc lk en _ hmem; cases hmem
  | cons p tl ih =>
      intro acc lk en hnd hmem
      rw [List.map_cons, List.nodup_cons] at hnd
      rw [List.foldl_cons]
      rcases List.mem_cons.mp hmem with hEq | hmemtl
      · have hfr : ∀ en2, (lk, en2) ∈ tl → env1 en2 = none := by
          intro en2 hen2
          exfalso
          apply hnd.1
          have : (lk, en2).1 ∈ tl.map Prod.fst := List.mem_map_of_mem Prod.fst hen2
          rw [← hEq]
          exact this
        rw [loadStep_foldl_frame env1 tl _ lk hfr]
        rw [← hEq]
        unfold Service.loadStep
        cases env1 en with
        | none => rfl
        | some v => simp [StoreMap.insert]
      · have hne : lk ≠ p.1 := by
          intro hEq
          apply hnd.1
          have : (lk, en).1 ∈ tl.map Prod.fst := List.mem_map_of_mem Prod.fst hmemtl
          rw [← hEq]
          exact this
        rw [ih _ lk en hnd.2 hmemtl]
        have hacc : Service.loadStep env1 acc p lk = acc lk := by
          unfold Service.loadStep
          cases env1 p.2 with
          | none => rfl
          | some v => simp [StoreMap.insert, hne]
        rw [hacc]

/-- The missing-keys component of the reflective mapper's fold equals
the accumulated prefix followed by the declaration-order missing list. -/
theorem reflectStep_foldl_snd (src : Env) :
    ∀ (fields : List StructField) (a : List (String × String)) (m : List String),
      (fields.foldl (reflectStep src) (a, m)).2 = m ++ missingTags src fields := by
  intro fields
  induction fields with
  | nil => intro a m; simp [missingTags]
  | cons f tl ih =>
      intro a m
      rw [List.foldl_cons]
      unfold reflectStep missingTags
      rw [List.filterMap_cons]
      cases htag : f.tag with
      | none =>
          simp only [htag]
          exact ih a m
      | some tagName =>
          simp only [htag]
          by_cases hflags : (f.isString && f.writable) = true
          · rw [if_pos hflags]
            cases hsrc : src tagName with
            | some v =>
                rw [Option.isNone_some, Bool.and_false, if_neg Bool.false_ne_true]
                exact ih (a ++ [(f.name, v)]) m
            | none =>
                rw [Option.isNone_none, Bool.and_true, hflags, if_pos rfl]
                refine (ih a (m ++ [tagName])).trans ?_
                rw [List.append_assoc]
                rfl
          · rw [if_neg hflags]
            have hb : (f.isString && f.writable) = false := Bool.eq_false_iff.mpr hflags
            rw [hb, Bool.false_and, if_neg Bool.false_ne_true]
            exact ih a m

/-- C1 (counterexample): the process environment holds `K1=hello` and
the mapping binds `A` to `K1`, yet `Load` with the empty source path
still attempts the file read, fails with `LoadEnvFailed`, and resolves
nothing — the success the claim predicts does not occur. -/
theorem load_empty_path_counterexample :
    envK1hello "K1" = some "hello" ∧
    Service.Load fsAllMissing envK1hello (Service.New [("A", "K1")]) "" =
      (Service.New [("A", "K1")], envK1hello, some GoErr.loadEnv) ∧
    ((Service.Load fsAllMissing envK1hello (Service.New [("A", "K1")]) "").1).config.values "A" =
      none :=
  ⟨rfl, rfl, rfl⟩

/-- C1 (amended): `Service.Load` with an empty source path does not
skip file parsing — it hands the empty path to the environment-file
collaborator like any other path, and since reading the empty path
fails, `Load` returns `LoadEnvFailed` with the store, the mapping and
the process environment untouched; no environment name is resolved. -/
theorem load_empty_path_reads_file (fs : FileSource) (env : Env) (s : Service) (e : GoErr)
    (h : fs "" = Except.error e) :
    Service.Load fs env s "" = (s, env, some GoErr.loadEnv) := by
  unfold Service.Load godotenvLoad
  rw [h]

/-- C1 (witness): the amended statement at a concrete file system on
which the empty path fails to read. -/
theorem load_empty_path_reads_file_witness :
    fsAllMissing "" = Except.error (GoErr.ioError "open : no such file or directory") ∧
    Service.Load fsAllMissing envNone (Service.New []) "" =
      (Service.New [], envNone, some GoErr.loadEnv) :=
  ⟨rfl, load_empty_path_reads_file fsAllMissing envNone (Service.New [])
    (GoErr.ioError "open : no such file or directory") rfl⟩

/-- C2 (counterexample): on an unreadable file `Load` returns the bare
`LoadEnvFailed` sentinel, whose `Unwrap` is `none` — the underlying
I/O cause is not wrapped (a wrapping error would unwrap to the cause,
as the third conjunct shows). -/
theorem load_fail_counterexample :
    Service.Load fsAllMissing envNone (Service.New [("A", "K1")]) "app.env" =
      (Service.New [("A", "K1")], envNone, some GoErr.loadEnv) ∧
    GoErr.unwrap GoErr.loadEnv = none ∧
    GoErr.unwrap (GoErr.wrap GoErr.loadEnv (GoErr.ioError "open : no such file or directory")) =
      some (GoErr.ioError "open : no such file or directory") :=
  ⟨rfl, rfl, rfl⟩

/-- C2 (amended): when the environment file cannot be read or parsed,
`Load` returns the bare `LoadEnvFailed` sentinel — the underlying cause
is only logged, not wrapped into the returned error — and the service's
store is left completely unchanged (no partial population). -/
theorem load_fail_sentinel_store_unchanged (fs : FileSource) (env : Env) (s : Service)
    (filePath : String) (e : GoErr) (h : fs filePath = Except.error e) :
    Service.Load fs env s filePath = (s, env, some GoErr.loadEnv) ∧
    GoErr.unwrap GoErr.loadEnv = none := by
  constructor
  · unfold Service.Load godotenvLoad
    rw [h]
  · rfl

/-- C2 (witness): the amended statement at a concrete failing file
system and a service whose store already holds a value. -/
theorem load_fail_sentinel_store_unchanged_witness :
    fsAllMissing "app.env" = Except.error (GoErr.ioError "open : no such file or directory") ∧
    (Service.Load fsAllMissing envNone svcBold "app.env" = (svcBold, envNone, some GoErr.loadEnv) ∧
      GoErr.unwrap GoErr.loadEnv = none) :=
  ⟨rfl, load_fail_sentinel_store_unchanged fsAllMissing envNone svcBold "app.env"
    (GoErr.ioError "open : no such file or directory") rfl⟩

/-- C4 (counterexample): on a store holding `a = x`,
`GetOrDefault("a", "x")` returns the default value `x` while `Has("a")`
is `true` — refuting "returns the default only if `Has` is false". -/
theorem getOrDefault_counterexample :
    Config.GetOrDefault cfgAX "a" "x" = "x" ∧ Config.Has cfgAX "a" = true :=
  ⟨rfl, rfl⟩

/-- C4 (amended): `GetOrDefault(k, d)` returns `d` iff `Has(k)` is
false or the stored value of `k` happens to equal `d`; in particular it
returns `d` whenever `Has(k)` is false, but not only then. -/
theorem getOrDefault_default_iff (c : Config) (k d : String) :
    Config.GetOrDefault c k d = d ↔ (Config.Has c k = false ∨ c.values k = some d) := by
  unfold Config.GetOrDefault Config.Has
  cases h : c.values k with
  | none => simp
  | some v => simp

/-- C5 (counterexample): the empty key is not rejected by every Store
operation — a store whose empty-string key was populated by `Load`
(mapping `"" -> K1`) answers `Has("")` with `true` and
`GetOrDefault("", "dflt")` with the stored value, with no `EmptyKey`
error anywhere (neither operation even has an error channel). -/
theorem empty_key_ops_counterexample :
    Config.Has svcEmptyKey.config "" = true ∧
    Config.GetOrDefault svcEmptyKey.config "" "dflt" = "hello" :=
  ⟨rfl, rfl⟩

/-- C5 (amended): only `Get` and `Set` reject the empty key with an
`EmptyKey` error; `GetOrDefault`, `Has` and `Delete` have no error
channel and process the empty key like any other key (`GetOrDefault`
falls back to the stored value or the default, `Has` reports presence,
`Delete` removes the entry). -/
theorem empty_key_boundary (c : Config) (s : Service) (v d : String) :
    Config.Get c "" = Except.error GoErr.emptyKey ∧
    Service.Set s "" v = Except.error GoErr.emptyKey ∧
    Config.GetOrDefault c "" d = (match c.values "" with | none => d | some x => x) ∧
    Config.Has c "" = (c.values "").isSome ∧
    (Service.Delete s "").config.values "" = none := by
  refine ⟨rfl, rfl, rfl, rfl, ?_⟩
  unfold Service.Delete StoreMap.erase
  simp

/-- C8: for every service, every non-empty key and every value
(including the empty string), `Set(k, v)` succeeds and a subsequent
`Get(k)` returns `v` with no error. -/
theorem set_then_get (s : Service) (k v : String) (hk : k ≠ "") :
    ∃ s2, Service.Set s k v = Except.ok s2 ∧ Service.Get s2 k = Except.ok v := by
  refine ⟨{ s with config := { values := StoreMap.insert s.config.values k v } }, ?_, ?_⟩
  · unfold Service.Set
    rw [if_neg hk]
  · unfold Service.Get Config.Get
    rw [if_neg hk]
    simp [StoreMap.insert]

/-- C8 (witness): `Set` then `Get` on the key `Port` with the empty
string as the stored value. -/
theorem set_then_get_witness :
    ("Port" : String) ≠ "" ∧
    (∃ s2, Service.Set (Service.New []) "Port" "" = Except.ok s2 ∧
      Service.Get s2 "Port" = Except.ok "") :=
  ⟨by decide, set_then_get (Service.New []) "Port" "" (by decide)⟩

/-- C9: in every store state, `Get` with the empty string as the key
fails with the `EmptyKey` error — never with `KeyNotFound`, and it
never succeeds — both at the `Config` and at the `Service` level. -/
theorem get_empty_key_always_empty_key_error (c : Config) (s : Service) :
    Config.Get c "" = Except.error GoErr.emptyKey ∧
    Service.Get s "" = Except.error GoErr.emptyKey :=
  ⟨rfl, rfl⟩

/-- C6: logging is disabled in the default toggle state, and with the
toggle disabled every logging call (`logInfo`, `logInfof`, `logError`)
is a no-op — it emits nothing on the diagnostic stream and leaves the
whole logging state unchanged. -/
theorem logging_disabled_noop (st : LogState) (c m : String) (e : GoErr)
    (h : st.logger.enabled = false) :
    globalLoggerInit.enabled = false ∧
    logInfo st c m = st ∧ logInfof st c m = st ∧ logError st c e = st := by
  refine ⟨rfl, ?_, ?_, ?_⟩ <;> simp [logInfo, logInfof, logError, h]

/-- C6 (witness): the three logging calls at the default (disabled)
logger state and an empty stream. -/
theorem logging_disabled_noop_witness :
    ({ logger := globalLoggerInit, lines := [] } : LogState).logger.enabled = false ∧
    (globalLoggerInit.enabled = false ∧
      logInfo { logger := globalLoggerInit, lines := [] } "Load" "msg" =
        { logger := globalLoggerInit, lines := [] } ∧
      logInfof { logger := globalLoggerInit, lines := [] } "Load" "msg" =
        { logger := globalLoggerInit, lines := [] } ∧
      logError { logger := globalLoggerInit, lines := [] } "Load" GoErr.loadEnv =
        { logger := globalLoggerInit, lines := [] }) :=
  ⟨rfl, logging_disabled_noop { logger := globalLoggerInit, lines := [] } "Load" "msg"
    GoErr.loadEnv rfl⟩

/-- C7: on a fresh service with mapping `M` (unique logical keys, as a
Go map guarantees) and a successful `Load`, every mapping entry whose
environment name resolves in the merged environment ends up in the
store with the resolved value, every entry whose name misses is simply
absent (soft-missing, no error), and no key outside `M`'s domain is
written. -/
theorem load_fresh_populates (fs : FileSource) (env env1 : Env) (M : ConfigMapping)
    (filePath : String) (hnd : (M.map Prod.fst).Nodup)
    (hfile : godotenvLoad fs env filePath = Except.ok env1) :
    (Service.Load fs env (Service.New M) filePath).2.2 = none ∧
    (∀ lk en, (lk, en) ∈ M →
      ((Service.Load fs env (Service.New M) filePath).1).config.values lk = env1 en) ∧
    (∀ k, k ∉ M.map Prod.fst →
      ((Service.Load fs env (Service.New M) filePath).1).config.values k = none) := by
  have hload : Service.Load fs env (Service.New M) filePath =
      ({ mapping := M, config := { values := M.foldl (Service.loadStep env1) StoreMap.empty } },
       env1, none) := by
    unfold Service.Load
    rw [hfile]
    rfl
  rw [hload]
  refine ⟨rfl, ?_, ?_⟩
  · intro lk en hmem
    have hlk := loadStep_foldl_lookup env1 M StoreMap.empty lk en hnd hmem
    refine hlk.trans ?_
    cases env1 en with
    | none => rfl
    | some v => rfl
  · intro k hk
    have hfr : ∀ en, (k, en) ∈ M → env1 en = none := by
      intro en hen
      exact absurd (List.mem_map_of_mem Prod.fst hen) hk
    exact loadStep_foldl_frame env1 M StoreMap.empty k hfr

/-- C7 (witness): a fresh service mapping `A -> K1` and `B -> K2`
loaded against an environment holding only `K1=hello`. -/
theorem load_fresh_populates_witness :
    (([("A", "K1"), ("B", "K2")] : ConfigMapping).map Prod.fst).Nodup ∧
    godotenvLoad fsAllEmpty envK1hello ".env" = Except.ok envK1hello ∧
    ((Service.Load fsAllEmpty envK1hello (Service.New [("A", "K1"), ("B", "K2")]) ".env").2.2 =
        none ∧
      (∀ lk en, (lk, en) ∈ ([("A", "K1"), ("B", "K2")] : ConfigMapping) →
        ((Service.Load fsAllEmpty envK1hello
          (Service.New [("A", "K1"), ("B", "K2")]) ".env").1).config.values lk =
          envK1hello en) ∧
      (∀ k, k ∉ ([("A", "K1"), ("B", "K2")] : ConfigMapping).map Prod.fst →
        ((Service.Load fsAllEmpty envK1hello
          (Service.New [("A", "K1"), ("B", "K2")]) ".env").1).config.values k = none)) :=
  ⟨by decide, rfl, load_fresh_populates fsAllEmpty envK1hello envK1hello
    [("A", "K1"), ("B", "K2")] ".env" (by decide) rfl⟩

/-- C10: a successful `Load` never removes or clears existing store
entries — any key that is not a mapping key whose environment name
resolved on this call (in particular any key outside the mapping, such
as one installed earlier via `Set`) keeps exactly the value or absence
it had before the call. -/
theorem load_preserves_unwritten_keys (fs : FileSource) (env env1 : Env) (s : Service)
    (filePath k : String) (hfile : godotenvLoad fs env filePath = Except.ok env1)
    (hk : ∀ en, (k, en) ∈ s.mapping → env1 en = none) :
    ((Service.Load fs env s filePath).1).config.values k = s.config.values k := by
  unfold Service.Load
  rw [hfile]
  exact loadStep_foldl_frame env1 s.mapping s.config.values k hk

/-- C10 (witness): a service whose store holds `A = old` (set earlier)
and whose mapping binds only `B`, loaded against an empty environment:
`A` keeps its old value. -/
theorem load_preserves_unwritten_keys_witness :
    godotenvLoad fsAllEmpty envNone ".env" = Except.ok envNone ∧
    (∀ en, ("A", en) ∈ svcBold.mapping → envNone en = none) ∧
    ((Service.Load fsAllEmpty envNone svcBold ".env").1).config.values "A" = some "old" :=
  ⟨rfl, fun _ _ => rfl,
    (load_preserves_unwritten_keys fsAllEmpty envNone envNone svcBold ".env" "A" rfl
      (fun _ _ => rfl)).trans rfl⟩

/-- C3: when two or more annotated fields' source lookups miss, the
reflective `Load` entry point fails with a single
`MissingRequiredFields` error whose message enumerates every missing
environment name, comma-joined, in field-declaration order (the list
`missingTags` is the declaration-order filter of the missing annotated
names). -/
theorem reflective_load_aggregates_missing (fs : FileSource) (env env1 : Env)
    (filePath : String) (fields : List StructField)
    (hfile : (if filePath = "" then Except.ok env else godotenvLoad fs env filePath) =
      Except.ok env1)
    (h2 : 2 ≤ (missingTags env1 fields).length) :
    reflectiveLoad fs env filePath fields =
      Except.error (GoErr.missingRequired
        (missingRequiredMessage (missingTags env1 fields))) := by
  have hsnd : (fields.foldl (reflectStep env1) ([], [])).2 = missingTags env1 fields := by
    have hgen := reflectStep_foldl_snd env1 fields [] []
    simpa using hgen
  have hne : ¬((fields.foldl (reflectStep env1) ([], [])).2.isEmpty = true) := by
    rw [hsnd]
    cases hmt : missingTags env1 fields with
    | nil =>
        rw [hmt] at h2
        exact absurd h2 (by decide)
    | cons a l => simp
  unfold reflectiveLoad
  rw [hfile]
  show (if (fields.foldl (reflectStep env1) ([], [])).2.isEmpty then
      Except.ok (fields.foldl (reflectStep env1) ([], [])).1
    else Except.error (GoErr.missingRequired
      (missingRequiredMessage (fields.foldl (reflectStep env1) ([], [])).2))) =
    Except.error (GoErr.missingRequired (missingRequiredMessage (missingTags env1 fields)))
  rw [if_neg hne, hsnd]

/-- C3 (witness): fields `A`, `B`, `C` annotated `K1`, `K2`, `K3`
against a source holding only `K1`: both `K2` and `K3` are reported, in
declaration order, in one comma-joined message. -/
theorem reflective_load_aggregates_missing_witness :
    ((if ("" : String) = "" then Except.ok envK1hello
      else godotenvLoad fsAllMissing envK1hello "") = Except.ok envK1hello) ∧
    2 ≤ (missingTags envK1hello fieldsKs).length ∧
    missingRequiredMessage (missingTags envK1hello fieldsKs) =
      "missing required environment variables: K2, K3" ∧
    reflectiveLoad fsAllMissing envK1hello "" fieldsKs =
      Except.error (GoErr.missingRequired
        (missingRequiredMessage (missingTags envK1hello fieldsKs))) :=
  ⟨rfl, by decide, rfl,
    reflective_load_aggregates_missing fsAllMissing envK1hello envK1hello "" fieldsKs rfl
      (by decide)⟩
